import Mathlib

/-!
Verification of the DeepSeek-OCR-CPU extraction core against its
natural-language specification.

The Python source is shallowly embedded: pure functions become Lean
functions, Python floats are modelled as rationals (ℚ), Python ints as ℤ,
`int(x)` truncation-toward-zero is modelled explicitly, and fallible code
returns Option/Except.  File-system effects are modelled as explicit lists
of written paths.  Definitions keep the source's snake_case names.
-/

namespace DeepSeekOCR

/-- Truncation toward zero of a rational, the behaviour of Python's
`int(x)` on a float.  For a rational in lowest terms `num / den` with
`den > 0`, `Int.div` (which truncates toward zero) gives exactly this. -/
def pyTrunc (q : ℚ) : ℤ := Int.tdiv q.num q.den

/-- Left-pad a decimal digit string with zeros to the given width. -/
def padZeros (width : Nat) (s : String) : String :=
  if s.length < width then String.mk (List.replicate (width - s.length) '0') ++ s else s

/-- Python `f"{n:04d}"` for a natural number. -/
def natPad4 (n : Nat) : String := padZeros 4 (toString n)

/-- Python `f"{n:04d}"` for an integer: the sign counts toward the width. -/
def intPad4 (n : Int) : String :=
  if n < 0 then "-" ++ padZeros 3 (toString n.natAbs) else natPad4 n.toNat

/-- Python `enumerate(xs, start=s)`: pair each list element with its
running index starting at `s`. -/
def enumFrom (start : Int) : List α → List (Int × α)
  | [] => []
  | a :: as => (start, a) :: enumFrom (start + 1) as

/-- Python list slicing `l[a:b]` (step 1): negative indices count from the
end, then both bounds are clamped into `[0, len(l)]`. -/
def pySlice (l : List α) (a b : Int) : List α :=
  let n : Int := l.length
  let norm : Int → Nat := fun i => (max 0 (min (if i < 0 then i + n else i) n)).toNat
  ((l.take (norm b)).drop (norm a))

/-! ## GeometryKernel: bbox_processor.py -/

/-- A bounding box with rational coordinates (Python floats/ints). -/
structure QBox where
  x1 : ℚ
  y1 : ℚ
  x2 : ℚ
  y2 : ℚ
deriving DecidableEq, Repr

/-- A bounding box with integer pixel coordinates. -/
structure IBox where
  x1 : ℤ
  y1 : ℤ
  x2 : ℤ
  y2 : ℤ
deriving DecidableEq, Repr

/-- A Python value that may appear in a bounding-box dict field: a number
(int/float, modelled as ℚ) or a non-numeric string. -/
inductive PyVal where
  | num (q : ℚ)
  | str (s : String)
deriving DecidableEq, Repr

/-- A bounding-box dict as received by `validate_bbox`: each of the four
keys may be missing (`none` models a `KeyError` on access). -/
structure PyBox where
  x1 : Option PyVal
  y1 : Option PyVal
  x2 : Option PyVal
  y2 : Option PyVal
deriving DecidableEq, Repr

/-- Python `a < b` between two dict values: number/number and
string/string comparisons succeed; a mixed comparison raises `TypeError`,
modelled as `none`. -/
def pyLt : PyVal → PyVal → Option Bool
  | PyVal.num a, PyVal.num b => some (decide (a < b))
  | PyVal.str a, PyVal.str b => some (decide (a < b))
  | _, _ => none

/-- Python `a >= b`, the negation of `a < b` under the same total orders. -/
def pyGe (a b : PyVal) : Option Bool := (pyLt a b).map (fun x => !x)

/-- Python `a > b`. -/
def pyGt (a b : PyVal) : Option Bool := pyLt b a

/-- bbox_processor.validate_bbox.  The `try` body runs the sequential
checks of the source; a `none` comparison models a raised `TypeError`
(mixed types) and a missing field models the `KeyError` on dict access,
both turned into `False` by the `except (KeyError, TypeError)` clause.
The `or`s short-circuit exactly as written in the source. -/
def validate_bbox (bbox : PyBox) (image_width image_height : ℚ)
    (allow_out_of_bounds : Bool) : Bool :=
  match bbox.x1, bbox.y1, bbox.x2, bbox.y2 with
  | some x1, some y1, some x2, some y2 =>
    (match pyGe x1 x2 with
     | none => false
     | some c1 =>
       if c1 then false else
       match pyGe y1 y2 with
       | none => false
       | some c2 =>
         if c2 then false else
         match pyLt x1 (PyVal.num 0) with
         | none => false
         | some c3 =>
           if c3 then false else
           match pyLt y1 (PyVal.num 0) with
           | none => false
           | some c4 =>
             if c4 then false else
             if allow_out_of_bounds then true else
             match pyGt x2 (PyVal.num image_width) with
             | none => false
             | some c5 =>
               if c5 then false else
               match pyGt y2 (PyVal.num image_height) with
               | none => false
               | some c6 => if c6 then false else true)
  | _, _, _, _ => false

/-- bbox_processor.denormalize_bbox_999: model-space 0-999 coordinates to
absolute pixels, `int(c / 999 * dim)` per coordinate. -/
def denormalize_bbox_999 (bbox : QBox) (image_width image_height : ℤ) : IBox :=
  { x1 := pyTrunc (bbox.x1 / 999 * image_width)
    y1 := pyTrunc (bbox.y1 / 999 * image_height)
    x2 := pyTrunc (bbox.x2 / 999 * image_width)
    y2 := pyTrunc (bbox.y2 / 999 * image_height) }

/-- bbox_processor.clip_bbox_to_image: clamp each coordinate into
`[0, width]` resp. `[0, height]`. -/
def clip_bbox_to_image (bbox : IBox) (image_width image_height : ℤ) : IBox :=
  { x1 := max 0 (min bbox.x1 image_width)
    y1 := max 0 (min bbox.y1 image_height)
    x2 := max 0 (min bbox.x2 image_width)
    y2 := max 0 (min bbox.y2 image_height) }

/-- bbox_processor.check_overlap: IoU of two boxes over rationals. -/
def check_overlap (bbox1 bbox2 : QBox) : ℚ :=
  let x1_inter := max bbox1.x1 bbox2.x1
  let y1_inter := max bbox1.y1 bbox2.y1
  let x2_inter := min bbox1.x2 bbox2.x2
  let y2_inter := min bbox1.y2 bbox2.y2
  if x1_inter ≥ x2_inter ∨ y1_inter ≥ y2_inter then 0
  else
    let inter_area := (x2_inter - x1_inter) * (y2_inter - y1_inter)
    let bbox1_area := (bbox1.x2 - bbox1.x1) * (bbox1.y2 - bbox1.y1)
    let bbox2_area := (bbox2.x2 - bbox2.x1) * (bbox2.y2 - bbox2.y1)
    let union_area := bbox1_area + bbox2_area - inter_area
    if union_area > 0 then inter_area / union_area else 0

/-- A box is valid when its corners are strictly ordered. -/
def validQBox (b : QBox) : Prop := b.x1 < b.x2 ∧ b.y1 < b.y2

/-! ## GroundingParser: element_extractor.py lines 21-55 -/

/-- Index of the first occurrence of `pat` in `s`, if any. -/
def findSub (pat : List Char) : List Char → Option Nat
  | [] => if pat.isEmpty then some 0 else none
  | c :: tail =>
    if pat.isPrefixOf (c :: tail) then some 0 else (findSub pat tail).map (fun i => i + 1)

/-- Try to match one grounding reference at the head of `s`, per the
non-greedy pattern of element_extractor.parse_grounding_references:
a literal ref-open tag, a lazily-matched label ending at the first
ref-close immediately followed by det-open, then a lazily-matched
coordinate literal ending at the first det-close.  Returns
(label, coordinates, remainder after the match). -/
def matchRefAt (s : List Char) : Option (List Char × List Char × List Char) :=
  if ("<|ref|>".data).isPrefixOf s then
    let rest := s.drop 7
    match findSub ("<|/ref|><|det|>".data) rest with
    | none => none
    | some j =>
      let rest2 := rest.drop (j + 15)
      match findSub ("<|/det|>".data) rest2 with
      | none => none
      | some k => some (rest.take j, rest2.take k, rest2.drop (k + 8))
  else none

/-- Left-to-right scan of `re.findall`: try the pattern at each position,
continue after each successful match.  Each step consumes at least one
character, so fuel equal to the input length suffices exactly. -/
def scanRefs : Nat → List Char → List (String × String)
  | 0, _ => []
  | _, [] => []
  | fuel + 1, c :: tail =>
    match matchRefAt (c :: tail) with
    | some (label, coords, rest) => (String.mk label, String.mk coords) :: scanRefs fuel rest
    | none => scanRefs fuel tail

/-- element_extractor.parse_grounding_references: extract all
(label, coordinates) pairs from the raw model output, in order. -/
def parse_grounding_references (text : String) : List (String × String) :=
  scanRefs (text.data.length + 1) text.data

/-- Python whitespace skippable inside an evaluated expression. -/
def isWsChar (c : Char) : Bool := c = ' ' ∨ c = '\t' ∨ c = '\n' ∨ c = '\r'

/-- Drop leading whitespace. -/
def skipWs (s : List Char) : List Char := s.dropWhile isWsChar

/-- Value of a list of decimal digit characters. -/
def digitsToNat (ds : List Char) : Nat :=
  ds.foldl (fun a c => a * 10 + (c.toNat - 48)) 0

/-- Parse one signed decimal numeral (integer or decimal-point float),
returning its rational value and the rest of the input. -/
def parseQNum (s : List Char) : Option (ℚ × List Char) :=
  let signed : Bool × List Char :=
    match s with
    | '-' :: t => (true, t)
    | '+' :: t => (false, t)
    | _ => (false, s)
  let ip := signed.2.takeWhile Char.isDigit
  let s2 := signed.2.dropWhile Char.isDigit
  match s2 with
  | '.' :: t =>
    let fp := t.takeWhile Char.isDigit
    let s3 := t.dropWhile Char.isDigit
    if ip.isEmpty ∧ fp.isEmpty then none
    else
      let v : ℚ := (digitsToNat ip : ℚ) + (digitsToNat fp : ℚ) / (10 : ℚ) ^ fp.length
      some (if signed.1 then -v else v, s3)
  | _ =>
    if ip.isEmpty then none
    else
      let v : ℚ := (digitsToNat ip : ℚ)
      some (if signed.1 then -v else v, s2)

/-- Continue a bracketed numeric list after its first element: repeatedly
a comma and a numeral, allowing Python's trailing comma, until the closing
bracket. -/
def parseNumListRest : Nat → List ℚ → List Char → Option (List ℚ × List Char)
  | 0, _, _ => none
  | fuel + 1, acc, s =>
    match skipWs s with
    | ']' :: t => some (acc.reverse, t)
    | ',' :: t =>
      match skipWs t with
      | ']' :: t2 => some (acc.reverse, t2)
      | t2 =>
        match parseQNum t2 with
        | some (q, rest) => parseNumListRest fuel (q :: acc) rest
        | none => none
    | _ => none

/-- Parse one bracketed list of numerals (one row of coordinates). -/
def parseRow (s : List Char) : Option (List ℚ × List Char) :=
  match s with
  | '[' :: t =>
    match skipWs t with
    | ']' :: t2 => some ([], t2)
    | t2 =>
      match parseQNum t2 with
      | some (q, rest) => parseNumListRest (rest.length + 1) [q] rest
      | none => none
  | _ => none

/-- Continue a bracketed list of rows after its first row, as in
`parseNumListRest`. -/
def parseRowsRest : Nat → List (List ℚ) → List Char → Option (List (List ℚ) × List Char)
  | 0, _, _ => none
  | fuel + 1, acc, s =>
    match skipWs s with
    | ']' :: t => some (acc.reverse, t)
    | ',' :: t =>
      match skipWs t with
      | ']' :: t2 => some (acc.reverse, t2)
      | t2 =>
        match parseRow t2 with
        | some (row, rest) => parseRowsRest fuel (row :: acc) rest
        | none => none
    | _ => none

/-- Parse a Python list-of-lists-of-numbers literal, returning the rows
and the unconsumed rest of the input. -/
def parseListOfLists (s : List Char) : Option (List (List ℚ) × List Char) :=
  match skipWs s with
  | '[' :: t =>
    match skipWs t with
    | ']' :: t2 => some ([], t2)
    | t2 =>
      match parseRow t2 with
      | some (row, rest) => parseRowsRest (rest.length + 1) [row] rest
      | none => none
  | _ => none

/-- element_extractor.parse_coordinates.  The source passes the literal to
Python `eval` and returns the result when it is a list, `None` on any
caught exception.  Modelled here is `eval` restricted to the fragment the
claims exercise: a list-of-lists-of-numbers literal, optionally followed
by `* n` (Python list repetition), which demonstrates that the literal is
evaluated as an expression rather than parsed by a strict grammar.
Anything outside this fragment is not modelled. -/
def parse_coordinates (coords_str : String) : Option (List (List ℚ)) :=
  match parseListOfLists coords_str.data with
  | none => none
  | some (rows, rest) =>
    match skipWs rest with
    | [] => some rows
    | '*' :: t =>
      let t2 := skipWs t
      let ds := t2.takeWhile Char.isDigit
      let t3 := t2.dropWhile Char.isDigit
      if ds.isEmpty then none
      else if (skipWs t3).isEmpty then
        some (List.flatten (List.replicate (digitsToNat ds) rows))
      else none
    | _ => none

/-- Modelled from the spec (§4.2, §9): the strict, sandboxed numeric-list
grammar that parse_coordinates is required to be — digits, signs, decimal
points, commas and brackets only (whitespace between tokens allowed); any
other token is a parse failure returning an absent result.  The repository
has no such parser; this definition follows the spec's words and is
compared against the source's `eval`-based behaviour. -/
def parse_coordinates_spec (coords_str : String) : Option (List (List ℚ)) :=
  match parseListOfLists coords_str.data with
  | none => none
  | some (rows, rest) => if (skipWs rest).isEmpty then some rows else none

/-! ## ElementExtractor: element_extractor.py lines 58-201 -/

/-- Extraction options, the keys read from the `extract_options` dict with
their defaults (element_extractor lines 96-100). -/
structure ExtractOptions where
  padding : ℤ := 0
  min_width : ℤ := 10
  min_height : ℤ := 10
  validate_strict : Bool := false
deriving DecidableEq, Repr

/-- Per-element derived metrics (the `metrics` sub-dict). -/
structure ElemMetrics where
  num_boxes : ℕ
  total_area : ℤ
  width : ℤ
  height : ℤ
  aspect_ratio : ℚ
deriving DecidableEq, Repr

/-- One extracted element (the dict built at element_extractor lines
178-196).  Integer pixel boxes, 0-1 normalized boxes as rationals. -/
structure Element where
  id : String
  type : String
  page : ℤ
  index : ℕ
  bounding_boxes : List IBox
  bounding_boxes_normalized : List QBox
  metrics : ElemMetrics
  image_width : ℤ
  image_height : ℤ
deriving DecidableEq, Repr

/-- Wrap an integer pixel box as the dict handed to `validate_bbox`. -/
def numBox (b : IBox) : PyBox :=
  { x1 := some (PyVal.num b.x1), y1 := some (PyVal.num b.y1)
    x2 := some (PyVal.num b.x2), y2 := some (PyVal.num b.y2) }

/-- The inner per-quadruple loop of extract_all_elements (lines 118-147):
skip non-quadruples; denormalize from 999-space; validate with
`allow_out_of_bounds=True`, dropping the box only under strict
validation; clip to the image; drop boxes below the minimum size. -/
def refBoxes (image_width image_height : ℤ) (min_width min_height : ℤ)
    (validate_strict : Bool) : List (List ℚ) → List IBox
  | [] => []
  | coords :: rest =>
    match coords with
    | [a, b, c, d] =>
      let bbox_model : QBox := { x1 := a, y1 := b, x2 := c, y2 := d }
      let bbox_abs := denormalize_bbox_999 bbox_model image_width image_height
      if !validate_bbox (numBox bbox_abs) image_width image_height true ∧ validate_strict then
        refBoxes image_width image_height min_width min_height validate_strict rest
      else
        let bb := clip_bbox_to_image bbox_abs image_width image_height
        if bb.x2 - bb.x1 < min_width ∨ bb.y2 - bb.y1 < min_height then
          refBoxes image_width image_height min_width min_height validate_strict rest
        else
          bb :: refBoxes image_width image_height min_width min_height validate_strict rest
    | _ => refBoxes image_width image_height min_width min_height validate_strict rest

/-- Smallest x1 over a nonempty list of boxes, etc.: Python `min(...)`. -/
def foldMin (f : IBox → ℤ) (b : IBox) (bs : List IBox) : ℤ :=
  (bs.map f).foldl min (f b)

/-- Largest value of `f` over `b :: bs`: Python `max(...)`. -/
def foldMax (f : IBox → ℤ) (b : IBox) (bs : List IBox) : ℤ :=
  (bs.map f).foldl max (f b)

/-- Build the element record for one grounding reference whose surviving
boxes are `b :: bs` (element_extractor lines 153-196). -/
def buildElement (image_width image_height : ℤ) (page_number : ℤ) (element_index : ℕ)
    (label_type : String) (b : IBox) (bs : List IBox) : Element :=
  let bounding_boxes := b :: bs
  let total_area := (bounding_boxes.map (fun bb => (bb.x2 - bb.x1) * (bb.y2 - bb.y1))).sum
  let min_x1 := foldMin IBox.x1 b bs
  let min_y1 := foldMin IBox.y1 b bs
  let max_x2 := foldMax IBox.x2 b bs
  let max_y2 := foldMax IBox.y2 b bs
  let overall_width := max_x2 - min_x1
  let overall_height := max_y2 - min_y1
  { id := "page_" ++ intPad4 page_number ++ "_elem_" ++ natPad4 element_index
    type := label_type
    page := page_number
    index := element_index
    bounding_boxes := bounding_boxes
    bounding_boxes_normalized := bounding_boxes.map (fun bb =>
      { x1 := (bb.x1 : ℚ) / (image_width : ℚ)
        y1 := (bb.y1 : ℚ) / (image_height : ℚ)
        x2 := (bb.x2 : ℚ) / (image_width : ℚ)
        y2 := (bb.y2 : ℚ) / (image_height : ℚ) })
    metrics :=
      { num_boxes := bounding_boxes.length
        total_area := total_area
        width := overall_width
        height := overall_height
        aspect_ratio :=
          if overall_height > 0 then (overall_width : ℚ) / (overall_height : ℚ) else 0 }
    image_width := image_width
    image_height := image_height }

/-- The main loop of extract_all_elements over parsed grounding
references (lines 110-199): skip references with unparsable coordinates
or with no surviving boxes; the running element index is incremented only
when an element is emitted. -/
def extractLoop (image_width image_height : ℤ) (min_width min_height : ℤ)
    (validate_strict : Bool) (page_number : ℤ) :
    List (String × String) → ℕ → List Element
  | [], _ => []
  | (label_type, coords_str) :: rest, element_index =>
    match parse_coordinates coords_str with
    | none =>
      extractLoop image_width image_height min_width min_height validate_strict
        page_number rest element_index
    | some coords_list =>
      match refBoxes image_width image_height min_width min_height validate_strict
          coords_list with
      | [] =>
        extractLoop image_width image_height min_width min_height validate_strict
          page_number rest element_index
      | b :: bs =>
        buildElement image_width image_height page_number element_index label_type b bs ::
          extractLoop image_width image_height min_width min_height validate_strict
            page_number rest (element_index + 1)

/-- element_extractor.extract_all_elements.  The source reads the option
keys up front (including `padding`, which is bound but never used in the
function body) and then iterates over the parsed references.  Division by
a zero image dimension, which would raise in Python, is total here
(`q / 0 = 0` in ℚ). -/
def extract_all_elements (image_width image_height : ℤ) (model_output : String)
    (page_number : ℤ) (options : ExtractOptions) : List Element :=
  extractLoop image_width image_height options.min_width options.min_height
    options.validate_strict page_number (parse_grounding_references model_output) 0

/-! ## OverlayRenderer: overlay_generator.py lines 181-230 -/

/-- Insert a string into a sorted list, keeping it sorted and duplicate
free. -/
def insertSortedDedup (s : String) : List String → List String
  | [] => [s]
  | t :: ts => if s < t then s :: t :: ts else if s = t then t :: ts else t :: insertSortedDedup s ts

/-- Python `sorted(set(xs))` for strings: lexicographically sorted
distinct values. -/
def sortedDedup (xs : List String) : List String :=
  xs.foldr insertSortedDedup []

/-- overlay_generator.generate_type_overlays, with its file-system effect
made explicit: returns the mapping from overlay key to saved path
together with the list of image files written.  The output directory is
created up front (a directory, not an image file); when `elements` is
empty the function returns the empty mapping before any image is
rendered or saved.  Otherwise one `{type}_only.jpg` per distinct type
(sorted) plus `all_types_colored.jpg` are written. -/
def generate_type_overlays (elements : List Element) (output_dir : String) :
    List (String × String) × List String :=
  if elements.isEmpty then ([], [])
  else
    let element_types := sortedDedup (elements.map Element.type)
    let perType := element_types.map (fun t => (t, output_dir ++ "/" ++ t ++ "_only.jpg"))
    let allPath := output_dir ++ "/all_types_colored.jpg"
    (perType ++ [("all_types", allPath)], perType.map Prod.snd ++ [allPath])

/-! ## PerformanceTracker: performance_metrics.py -/

/-- performance_metrics.PerformanceMetrics. -/
structure PerformanceMetrics where
  total_time : ℚ
  tokens_generated : ℤ
  tokens_per_second : ℚ
  input_tokens : ℤ := 0
  total_tokens_processed : ℤ := 0
deriving DecidableEq, Repr

/-- performance_metrics.AggregateMetrics. -/
structure AggregateMetrics where
  num_operations : ℕ
  total_time : ℚ
  total_tokens_generated : ℤ
  min_time : ℚ
  max_time : ℚ
  avg_time : ℚ
  min_tokens_per_sec : ℚ
  max_tokens_per_sec : ℚ
  avg_tokens_per_sec : ℚ
  total_input_tokens : ℤ := 0
  total_tokens_processed : ℤ := 0
deriving DecidableEq, Repr

/-- Python `min(x :: xs)` over rationals. -/
def listMin (x : ℚ) (xs : List ℚ) : ℚ := xs.foldl min x

/-- Python `max(x :: xs)` over rationals. -/
def listMax (x : ℚ) (xs : List ℚ) : ℚ := xs.foldl max x

/-- PerformanceTracker.aggregate: `None` models the `ValueError` raised
when no metrics have been recorded; otherwise count, sums, min, max and
`statistics.mean` (sum divided by length) over the accumulated
sequence. -/
def aggregate (metrics : List PerformanceMetrics) : Option AggregateMetrics :=
  match metrics with
  | [] => none
  | m :: ms =>
    let times := (m :: ms).map PerformanceMetrics.total_time
    let throughputs := (m :: ms).map PerformanceMetrics.tokens_per_second
    some
      { num_operations := (m :: ms).length
        total_time := times.sum
        total_tokens_generated := ((m :: ms).map PerformanceMetrics.tokens_generated).sum
        min_time := listMin m.total_time (ms.map PerformanceMetrics.total_time)
        max_time := listMax m.total_time (ms.map PerformanceMetrics.total_time)
        avg_time := times.sum / (times.length : ℚ)
        min_tokens_per_sec :=
          listMin m.tokens_per_second (ms.map PerformanceMetrics.tokens_per_second)
        max_tokens_per_sec :=
          listMax m.tokens_per_second (ms.map PerformanceMetrics.tokens_per_second)
        avg_tokens_per_sec := throughputs.sum / (throughputs.length : ℚ)
        total_input_tokens := ((m :: ms).map PerformanceMetrics.input_tokens).sum
        total_tokens_processed :=
          ((m :: ms).map PerformanceMetrics.total_tokens_processed).sum }

/-! ## PageAggregator / DocumentAggregator: image.py and pdf.py -/

/-- The per-page external inputs: the page image's pixel dimensions and
the OCR model's two outputs for that image (rendered markdown and the raw
tagged text read back from `result_raw.txt`). -/
structure PageData where
  width : ℤ
  height : ℤ
  markdown : String
  rawOutput : String
deriving DecidableEq, Repr

/-- The result dict of image.process_image_enhanced (element-path and
overlay-path side effects omitted). -/
structure ImagePageResult where
  markdown : String
  elements : List Element
  raw_output : String
deriving DecidableEq, Repr

/-- image.process_image_enhanced: runs the standard pipeline and then
extracts elements from the raw output.  The call at image.py line 178
passes `page_number=1` unconditionally. -/
def process_image_enhanced (p : PageData) (extract_options : ExtractOptions) :
    ImagePageResult :=
  { markdown := p.markdown
    elements := extract_all_elements p.width p.height p.rawOutput 1 extract_options
    raw_output := p.rawOutput }

/-- One entry of pdf.process_pdf_enhanced's `page_results`: the enhanced
result plus the `page_number` stamped at pdf.py line 124 and the per-page
output directory name from line 112. -/
structure PdfPageResult where
  result : ImagePageResult
  page_number : ℤ
  dir : String
deriving DecidableEq, Repr

/-- One entry of the document structure's `pages` list (pdf.py lines
151-158).  The source stores `element_types` as `list(set(...))`, whose
Python iteration order is unspecified; the deduplicated first-seen list
stands in for it and only the underlying set is meaningful. -/
structure StructPage where
  page : ℤ
  num_elements : ℕ
  element_types : List String
deriving DecidableEq, Repr

/-- pdf.process_pdf_enhanced's `document_structure` (lines 144-159). -/
structure DocStructure where
  num_pages : ℕ
  total_elements : ℕ
  pages : List StructPage
deriving DecidableEq, Repr

/-- The dict returned by pdf.process_pdf_enhanced (lines 175-180),
`output_dir` omitted. -/
structure DocResult where
  markdown : String
  pages : List PdfPageResult
  struct : DocStructure
deriving DecidableEq, Repr

/-- The combined-markdown builder shared by the pdf entry points (pdf.py
lines 131-134): each page's stripped markdown is prefixed by a page
marker, with the page index enumerated from 1, and the parts are joined
by a blank line.  A falsy (empty) content leaves the marker alone. -/
def combineMarkdown (page_markdowns : List String) : String :=
  String.intercalate "\n\n" ((enumFrom 1 page_markdowns).map (fun ic =>
    if ic.2 ≠ "" then "<!-- Page " ++ toString ic.1 ++ " -->\n" ++ ic.2
    else "<!-- Page " ++ toString ic.1 ++ " -->"))

/-- The per-page loop and aggregation of pdf.process_pdf_enhanced (lines
105-180), given the already-sliced page sequence and the starting page
number: each page is processed by the enhanced image pipeline and stamped
with its running number and output directory name; the combined markdown
(lines 131-134) enumerates its page markers from 1 regardless of the
starting number; the document structure summarises per-page element
counts and types. -/
def buildDocResult (image_paths : List PageData) (start : ℤ)
    (extract_options : ExtractOptions) : DocResult :=
  let page_results := (enumFrom start image_paths).map (fun ip =>
    { result := process_image_enhanced ip.2 extract_options
      page_number := ip.1
      dir := "page_" ++ intPad4 ip.1 : PdfPageResult })
  let page_markdowns := page_results.map (fun r => r.result.markdown.trim)
  let combined_markdown := combineMarkdown page_markdowns
  let all_elements := (page_results.map (fun r => r.result.elements)).flatten
  { markdown := combined_markdown
    pages := page_results
    struct :=
      { num_pages := page_results.length
        total_elements := all_elements.length
        pages := page_results.map (fun r =>
          { page := r.page_number
            num_elements := r.result.elements.length
            element_types := (r.result.elements.map Element.type).eraseDups }) } }

/-- pdf.process_pdf_enhanced, its pure decision core.  `pages` is the
ordered page-image sequence produced by PDF-to-image conversion together
with the model outputs for each page; `Except.error` models the raised
`ValueError`s.  Page range filtering (lines 97-103) slices with
`start_page - 1 .. end_page` when either bound is given and fails when the
slice is empty, before any per-page work; the per-page loop (line 109)
enumerates from `start_page if start_page else 1` (a `start_page` of 0 is
falsy and numbers from 1). -/
def process_pdf_enhanced (pages : List PageData) (start_page end_page : Option ℤ)
    (extract_options : ExtractOptions) : Except String DocResult :=
  if pages.isEmpty then Except.error "No pages found in PDF"
  else
    let ranged : Except String (List PageData) :=
      if start_page.isSome || end_page.isSome then
        let start_idx : ℤ := match start_page with | some s => s - 1 | none => 0
        let end_idx : ℤ := match end_page with | some e => e | none => (pages.length : ℤ)
        let sliced := pySlice pages start_idx end_idx
        if sliced.isEmpty then Except.error "No pages in range" else Except.ok sliced
      else Except.ok pages
    match ranged with
    | Except.error e => Except.error e
    | Except.ok image_paths =>
      let start : ℤ := match start_page with | some s => if s = 0 then 1 else s | none => 1
      Except.ok (buildDocResult image_paths start extract_options)

/-! ## Shared helper lemmas -/

theorem extractLoop_boxes_ne (iw ih mw mh : ℤ) (vs : Bool) (pg : ℤ) :
    ∀ (refs : List (String × String)) (idx : ℕ),
      ∀ e ∈ extractLoop iw ih mw mh vs pg refs idx, e.bounding_boxes ≠ [] := by
  intro refs
  induction refs with
  | nil => intro idx e he; simp [extractLoop] at he
  | cons hd tl ih2 =>
    obtain ⟨lbl, cstr⟩ := hd
    intro idx e he
    rcases hp : parse_coordinates cstr with _ | cl
    · simp only [extractLoop, hp] at he
      exact ih2 idx e he
    · rcases hb : refBoxes iw ih mw mh vs cl with _ | ⟨b, bs⟩
      · simp only [extractLoop, hp, hb] at he
        exact ih2 idx e he
      · simp only [extractLoop, hp, hb] at he
        rcases List.mem_cons.mp he with he1 | he2
        · subst he1; simp [buildElement]
        · exact ih2 (idx + 1) e he2

theorem extractLoop_map_index (iw ih mw mh : ℤ) (vs : Bool) (pg : ℤ) :
    ∀ (refs : List (String × String)) (idx : ℕ),
      (extractLoop iw ih mw mh vs pg refs idx).map Element.index =
        List.range' idx (extractLoop iw ih mw mh vs pg refs idx).length := by
  intro refs
  induction refs with
  | nil => intro idx; rfl
  | cons hd tl ih2 =>
    obtain ⟨lbl, cstr⟩ := hd
    intro idx
    rcases hp : parse_coordinates cstr with _ | cl
    · simp only [extractLoop, hp]
      exact ih2 idx
    · rcases hb : refBoxes iw ih mw mh vs cl with _ | ⟨b, bs⟩
      · simp only [extractLoop, hp, hb]
        exact ih2 idx
      · simp only [extractLoop, hp, hb, List.map_cons, List.length_cons, ih2 (idx + 1)]
        rfl

theorem extractLoop_id_page (iw ih mw mh : ℤ) (vs : Bool) (pg : ℤ) :
    ∀ (refs : List (String × String)) (idx : ℕ),
      ∀ e ∈ extractLoop iw ih mw mh vs pg refs idx,
        e.id = "page_" ++ intPad4 pg ++ "_elem_" ++ natPad4 e.index ∧ e.page = pg := by
  intro refs
  induction refs with
  | nil => intro idx e he; simp [extractLoop] at he
  | cons hd tl ih2 =>
    obtain ⟨lbl, cstr⟩ := hd
    intro idx e he
    rcases hp : parse_coordinates cstr with _ | cl
    · simp only [extractLoop, hp] at he
      exact ih2 idx e he
    · rcases hb : refBoxes iw ih mw mh vs cl with _ | ⟨b, bs⟩
      · simp only [extractLoop, hp, hb] at he
        exact ih2 idx e he
      · simp only [extractLoop, hp, hb] at he
        rcases List.mem_cons.mp he with he1 | he2
        · subst he1; simp [buildElement]
        · exact ih2 (idx + 1) e he2

theorem enumFrom_length (l : List α) : ∀ s : ℤ, (enumFrom s l).length = l.length := by
  induction l with
  | nil => intro s; rfl
  | cons a as ih => intro s; simp [enumFrom, ih (s + 1)]

theorem enumFrom_map_fst (l : List α) : ∀ s : ℤ,
    (enumFrom s l).map Prod.fst = (List.range l.length).map (fun (i : ℕ) => s + (i : ℤ)) := by
  induction l with
  | nil => intro s; rfl
  | cons a as ih =>
    intro s
    rw [List.length_cons, List.range_succ_eq_map, List.map_cons, List.map_map]
    rw [enumFrom, List.map_cons, ih (s + 1)]
    refine congrArg₂ List.cons (by push_cast; ring) ?_
    refine List.map_congr_left ?_
    intro i hi
    simp only [Function.comp_apply]
    push_cast
    ring

theorem buildDocResult_page_numbers (l : List PageData) (s : ℤ) (o : ExtractOptions) :
    (buildDocResult l s o).pages.map PdfPageResult.page_number =
      (List.range (buildDocResult l s o).pages.length).map (fun (i : ℕ) => s + (i : ℤ)) := by
  simp only [buildDocResult, List.map_map, List.length_map, enumFrom_length]
  have h := enumFrom_map_fst l s
  rw [← h]
  rfl

theorem buildDocResult_dirs (l : List PageData) (s : ℤ) (o : ExtractOptions) :
    (buildDocResult l s o).pages.map PdfPageResult.dir =
      (buildDocResult l s o).pages.map (fun p => "page_" ++ intPad4 p.page_number) := by
  simp only [buildDocResult, List.map_map]
  rfl

theorem buildDocResult_markdown (l : List PageData) (s : ℤ) (o : ExtractOptions) :
    (buildDocResult l s o).markdown =
      combineMarkdown ((buildDocResult l s o).pages.map (fun p => p.result.markdown.trim)) := by
  simp only [buildDocResult, List.map_map]

theorem buildDocResult_elements (l : List PageData) (s : ℤ) (o : ExtractOptions) :
    (buildDocResult l s o).pages.map (fun p => p.result.elements.map (fun e => (e.page, e.id))) =
      (buildDocResult l s o).pages.map (fun p => p.result.elements.map (fun e =>
        ((1 : ℤ), "page_0001_elem_" ++ natPad4 e.index))) := by
  simp only [buildDocResult, List.map_map]
  refine List.map_congr_left ?_
  intro ip hip
  simp only [Function.comp_apply, process_image_enhanced, extract_all_elements]
  refine List.map_congr_left ?_
  intro e hee
  have hpre : ("page_" ++ intPad4 1) ++ "_elem_" = "page_0001_elem_" := by
    with_unfolding_all rfl
  obtain ⟨hid, hpg⟩ := extractLoop_id_page _ _ _ _ _ _ _ _ e hee
  refine Prod.ext ?_ ?_
  · simpa using hpg
  · simp only [hid, ← hpre]

/-- The model-output text of the spec's worked example: one `title`
reference whose single model-space box is `[[0,0,100,50]]`. -/
def titleRefText : String := "<|ref|>title<|/ref|><|det|>[[0,0,100,50]]<|/det|>"

/-- The element extracted from `titleRefText` on a 200×200 image. -/
def titleElem : Element :=
  { id := "page_0001_elem_0000", type := "title", page := 1, index := 0,
    bounding_boxes := [{ x1 := 0, y1 := 0, x2 := 20, y2 := 10 }],
    bounding_boxes_normalized := [{ x1 := 0, y1 := 0, x2 := 1/10, y2 := 1/20 }],
    metrics := { num_boxes := 1, total_area := 200, width := 20, height := 10,
                 aspect_ratio := 2 },
    image_width := 200, image_height := 200 }

/-- Two references of which the second's box collapses below the minimum
size after denormalization: `[[0,0,5,5]]` maps to a 1×1 pixel box on a
200×200 image and is dropped. -/
def twoRefText : String :=
  "<|ref|>title<|/ref|><|det|>[[0,0,100,50]]<|/det|><|ref|>text<|/ref|><|det|>[[0,0,5,5]]<|/det|>"

/-- A two-page document whose second page contains the title reference;
used to exercise page numbering under a page-range request. -/
def cexPages : List PageData :=
  [{ width := 200, height := 200, markdown := "md1", rawOutput := "" },
   { width := 200, height := 200, markdown := "md2", rawOutput := titleRefText }]

/-- A minimal concrete page for witness instantiations. -/
def onePage : PageData := { width := 1, height := 1, markdown := "", rawOutput := "" }

/-! ## Claim theorems -/

/-- Claim C1 (code bug): parse_coordinates does NOT parse with a strict
numeric-list grammar — the source hands the literal to Python `eval`, so
the expression `[[0,0,100,50]]*2` (list repetition, not a numeric-list
literal) is evaluated as code and yields two boxes, while the strict
grammar required by the spec rejects it as malformed and returns an
absent result. -/
theorem parse_coordinates_executes_expression :
    parse_coordinates "[[0,0,100,50]]*2" =
      some [[0, 0, 100, 50], [0, 0, 100, 50]] ∧
    parse_coordinates_spec "[[0,0,100,50]]*2" = none :=
  ⟨by with_unfolding_all rfl, by with_unfolding_all rfl⟩

/-- Claim C2 (counterexample): with `startPage = 2` over a two-page
document, the single processed page gets output directory `page_0002` and
per-page result number 2, but its extracted element carries `page = 1`
and id prefix `page_0001`, and the combined markdown's marker reads
`Page 1` — so the start-page numbering does not feed the element page
fields, the id prefixes, or the page markers, contradicting the claim. -/
theorem process_pdf_numbering_counterexample :
    (process_pdf_enhanced cexPages (some 2) none {}).map (fun r =>
      (r.pages.map PdfPageResult.dir, r.pages.map PdfPageResult.page_number,
       r.pages.map (fun p => p.result.elements.map Element.page),
       r.pages.map (fun p => p.result.elements.map Element.id),
       r.markdown)) =
    Except.ok (["page_0002"], [2], [[1]], [["page_0001_elem_0000"]],
      "<!-- Page 1 -->\nmd2") := by
  with_unfolding_all rfl

/-- Claim C2 (amended): when processDocument is called with
`startPage = s`, the per-page results are numbered consecutively from `s`
(with a falsy `s = 0` treated as 1) and this numbering feeds the per-page
output directory names; however every emitted Element's `page` field is 1
and its id prefix is `page_0001` (the per-page extractor is always
invoked with page number 1), and the combined markdown's page markers are
produced by `combineMarkdown`, which enumerates from 1 regardless of
`startPage`. -/
theorem process_pdf_numbering_amended :
    ∀ (pages : List PageData) (s : ℤ) (ep : Option ℤ) (o : ExtractOptions),
      (process_pdf_enhanced pages (some s) ep o).map
          (fun r => r.pages.map PdfPageResult.page_number) =
        (process_pdf_enhanced pages (some s) ep o).map (fun r =>
          (List.range r.pages.length).map
            (fun (i : ℕ) => (if s = 0 then 1 else s) + (i : ℤ))) ∧
      (process_pdf_enhanced pages (some s) ep o).map (fun r => r.pages.map PdfPageResult.dir) =
        (process_pdf_enhanced pages (some s) ep o).map (fun r =>
          r.pages.map (fun p => "page_" ++ intPad4 p.page_number)) ∧
      (process_pdf_enhanced pages (some s) ep o).map (fun r => r.markdown) =
        (process_pdf_enhanced pages (some s) ep o).map (fun r =>
          combineMarkdown (r.pages.map (fun p => p.result.markdown.trim))) ∧
      (process_pdf_enhanced pages (some s) ep o).map (fun r =>
          r.pages.map (fun p => p.result.elements.map (fun e => (e.page, e.id)))) =
        (process_pdf_enhanced pages (some s) ep o).map (fun r =>
          r.pages.map (fun p => p.result.elements.map (fun e =>
            ((1 : ℤ), "page_0001_elem_" ++ natPad4 e.index)))) := by
  intro pages s ep o
  simp only [process_pdf_enhanced, Option.isSome_some, Bool.true_or, if_true]
  by_cases h0 : pages.isEmpty
  · rw [if_pos h0]
    exact ⟨rfl, rfl, rfl, rfl⟩
  · rw [if_neg h0]
    cases ep with
    | none =>
      by_cases h1 : (pySlice pages (s - 1) (pages.length : ℤ)).isEmpty
      · rw [if_pos h1]
        exact ⟨rfl, rfl, rfl, rfl⟩
      · rw [if_neg h1]
        refine ⟨?_, ?_, ?_, ?_⟩
        · exact congrArg Except.ok (buildDocResult_page_numbers
            (pySlice pages (s - 1) (pages.length : ℤ)) (if s = 0 then 1 else s) o)
        · exact congrArg Except.ok (buildDocResult_dirs
            (pySlice pages (s - 1) (pages.length : ℤ)) (if s = 0 then 1 else s) o)
        · exact congrArg Except.ok (buildDocResult_markdown
            (pySlice pages (s - 1) (pages.length : ℤ)) (if s = 0 then 1 else s) o)
        · exact congrArg Except.ok (buildDocResult_elements
            (pySlice pages (s - 1) (pages.length : ℤ)) (if s = 0 then 1 else s) o)
    | some e =>
      by_cases h1 : (pySlice pages (s - 1) e).isEmpty
      · rw [if_pos h1]
        exact ⟨rfl, rfl, rfl, rfl⟩
      · rw [if_neg h1]
        refine ⟨?_, ?_, ?_, ?_⟩
        · exact congrArg Except.ok (buildDocResult_page_numbers
            (pySlice pages (s - 1) e) (if s = 0 then 1 else s) o)
        · exact congrArg Except.ok (buildDocResult_dirs
            (pySlice pages (s - 1) e) (if s = 0 then 1 else s) o)
        · exact congrArg Except.ok (buildDocResult_markdown
            (pySlice pages (s - 1) e) (if s = 0 then 1 else s) o)
        · exact congrArg Except.ok (buildDocResult_elements
            (pySlice pages (s - 1) e) (if s = 0 then 1 else s) o)

/-- Claim C3: page-range bounds slice the page sequence with 1-indexed
inclusive semantics (for `1 ≤ s` and `0 ≤ e`, slice `s-1 .. e` is the
pages at 1-indexed positions `s` through `e`); whenever either bound is
given (the missing bound defaulting to the start or the end of the
sequence as in the source) an empty slice fails with the out-of-range
error before any per-page work; and `startPage = 3`, `endPage = 5` over
10 pages processes exactly 3 pages numbered 3, 4, 5 in both the per-page
results and the document structure. -/
theorem page_range_slicing_ok :
    (∀ (paths : List ℕ) (s e : ℤ), 1 ≤ s → 0 ≤ e →
      pySlice paths (s - 1) e = (paths.take e.toNat).drop (s - 1).toNat) ∧
    (∀ (pages : List PageData) (sp ep : Option ℤ) (o : ExtractOptions),
      sp.isSome = true ∨ ep.isSome = true → pages ≠ [] →
      pySlice pages (match sp with | some s => s - 1 | none => 0)
        (match ep with | some e => e | none => (pages.length : ℤ)) = [] →
      process_pdf_enhanced pages sp ep o = Except.error "No pages in range") ∧
    (∀ (p1 p2 p3 p4 p5 p6 p7 p8 p9 p10 : PageData) (o : ExtractOptions),
      (process_pdf_enhanced [p1, p2, p3, p4, p5, p6, p7, p8, p9, p10] (some 3) (some 5) o).map
        (fun r => (r.pages.length, r.pages.map PdfPageResult.page_number,
                   r.struct.pages.map StructPage.page, r.pages.map PdfPageResult.dir)) =
      Except.ok (3, [3, 4, 5], [3, 4, 5], ["page_0003", "page_0004", "page_0005"])) := by
  refine ⟨?_, ?_, ?_⟩
  · intro paths s e hs he
    unfold pySlice
    have h1 : ¬ (s - 1 < 0) := by omega
    have h2 : ¬ (e < 0) := by omega
    simp only [h1, h2, if_false]
    have htake : paths.take (max 0 (min e (paths.length : ℤ))).toNat = paths.take e.toNat := by
      by_cases hc : e ≤ (paths.length : ℤ)
      · have hm : max 0 (min e (paths.length : ℤ)) = e := by omega
        rw [hm]
      · have hm : (max 0 (min e (paths.length : ℤ))).toNat = paths.length := by omega
        rw [hm, List.take_length, List.take_of_length_le (by omega)]
    rw [htake]
    by_cases hc : s - 1 ≤ (paths.length : ℤ)
    · have hm : max 0 (min (s - 1) (paths.length : ℤ)) = s - 1 := by omega
      rw [hm]
    · have hm : (max 0 (min (s - 1) (paths.length : ℤ))).toNat = paths.length := by omega
      rw [hm]
      rw [List.drop_of_length_le (by simp), List.drop_of_length_le]
      calc (paths.take e.toNat).length ≤ paths.length := by simp
      _ ≤ (s - 1).toNat := by omega
  · intro pages sp ep o hgiven hne hsl
    unfold process_pdf_enhanced
    rw [if_neg (by simpa using hne)]
    rcases sp with _ | s <;> rcases ep with _ | e
    · simp at hgiven
    · have hsl2 : pySlice pages 0 e = [] := hsl
      simp only [Option.isSome_none, Option.isSome_some, Bool.false_or, if_true, hsl2]
      rfl
    · have hsl2 : pySlice pages (s - 1) (pages.length : ℤ) = [] := hsl
      simp only [Option.isSome_some, Bool.true_or, if_true, hsl2]
      rfl
    · have hsl2 : pySlice pages (s - 1) e = [] := hsl
      simp only [Option.isSome_some, Bool.true_or, if_true, hsl2]
      rfl
  · intro p1 p2 p3 p4 p5 p6 p7 p8 p9 p10 o
    with_unfolding_all rfl

/-- Witness for C3: the slicing identity at `paths = [0,1,2]`, `s = 1`,
`e = 2`; the out-of-range failure over a one-page document both with only
the start bound given (`start_page = 15`, `end_page` absent) and with
both bounds given (range 5-7); and the concrete 10-page instance. -/
theorem page_range_slicing_ok_witness :
    pySlice [(0 : ℕ), 1, 2] (1 - 1) 2 =
      (([(0 : ℕ), 1, 2]).take (2 : ℤ).toNat).drop ((1 : ℤ) - 1).toNat ∧
    process_pdf_enhanced [onePage] (some 15) none {} =
      Except.error "No pages in range" ∧
    process_pdf_enhanced [onePage] (some 5) (some 7) {} =
      Except.error "No pages in range" ∧
    (process_pdf_enhanced [onePage, onePage, onePage, onePage, onePage, onePage, onePage,
        onePage, onePage, onePage] (some 3) (some 5) {}).map
      (fun r => (r.pages.length, r.pages.map PdfPageResult.page_number,
                 r.struct.pages.map StructPage.page, r.pages.map PdfPageResult.dir)) =
      Except.ok (3, [3, 4, 5], [3, 4, 5], ["page_0003", "page_0004", "page_0005"]) :=
  ⟨page_range_slicing_ok.1 [0, 1, 2] 1 2 (by decide) (by decide),
   page_range_slicing_ok.2.1 [onePage] (some 15) none {} (Or.inl rfl) (by decide) (by decide),
   page_range_slicing_ok.2.1 [onePage] (some 5) (some 7) {} (Or.inl rfl) (by decide) (by decide),
   page_range_slicing_ok.2.2 onePage onePage onePage onePage onePage onePage onePage
     onePage onePage onePage {}⟩

/-- Claim C4: on every input, each emitted element has at least one
bounding box (a reference surviving with zero boxes is skipped whole),
the emitted indices are exactly 0, 1, 2, … in emission order (skipped
references never consume an index), and each id embeds the page number
and that index in the `page_NNNN_elem_NNNN` format. -/
theorem extract_all_elements_invariants :
    ∀ (iw ih : ℤ) (out : String) (pg : ℤ) (o : ExtractOptions),
      (∀ e ∈ extract_all_elements iw ih out pg o, e.bounding_boxes ≠ []) ∧
      (extract_all_elements iw ih out pg o).map Element.index =
        List.range (extract_all_elements iw ih out pg o).length ∧
      (∀ e ∈ extract_all_elements iw ih out pg o,
        e.id = "page_" ++ intPad4 pg ++ "_elem_" ++ natPad4 e.index) := by
  intro iw ih out pg o
  refine ⟨fun e he => extractLoop_boxes_ne _ _ _ _ _ _ _ _ e he, ?_,
    fun e he => (extractLoop_id_page _ _ _ _ _ _ _ _ e he).1⟩
  rw [List.range_eq_range']
  exact extractLoop_map_index iw ih o.min_width o.min_height o.validate_strict pg _ 0

/-- Witness for C4 at the spec's two-reference example (the second
reference's box collapses below the minimum size, so exactly one element
is emitted, consuming index 0 only). -/
theorem extract_all_elements_invariants_witness :
    titleElem.bounding_boxes ≠ [] ∧
    (extract_all_elements 200 200 twoRefText 1 {}).map Element.index =
      List.range (extract_all_elements 200 200 twoRefText 1 {}).length ∧
    titleElem.id = "page_" ++ intPad4 1 ++ "_elem_" ++ natPad4 titleElem.index := by
  have hx : extract_all_elements 200 200 twoRefText 1 {} = [titleElem] := by
    with_unfolding_all rfl
  have hmem : titleElem ∈ extract_all_elements 200 200 twoRefText 1 {} := by
    rw [hx]; exact List.mem_singleton.mpr rfl
  exact ⟨(extract_all_elements_invariants 200 200 twoRefText 1 {}).1 titleElem hmem,
    (extract_all_elements_invariants 200 200 twoRefText 1 {}).2.1,
    (extract_all_elements_invariants 200 200 twoRefText 1 {}).2.2 titleElem hmem⟩

/-- Claim C5: extracting with default options from
`<|ref|>title<|/ref|><|det|>[[0,0,100,50]]<|/det|>` on a 200×200 image
yields exactly one element of type `title` with the single absolute box
(0, 0, 20, 10), the 0-999 model coordinates scaled by dimension/999 and
truncated to integers. -/
theorem extract_single_title_example :
    extract_all_elements 200 200 titleRefText 1 {} = [titleElem] := by
  with_unfolding_all rfl

/-- Claim C6: validate_bbox totally evaluates to a Boolean (the model is
a total function; every raised KeyError/TypeError is caught as `false`),
and returns `false` whenever the numeric fields violate the ordering
(`x1 ≥ x2` or `y1 ≥ y2`, regardless of the remaining fields), whenever
any numeric coordinate is negative, and — with `allow_out_of_bounds`
false — whenever `x2 > width` or `y2 > height`. -/
theorem validate_bbox_false_cases :
    ∀ (bbox : PyBox) (w h : ℚ) (allow : Bool),
      (∀ q1 q2, bbox.x1 = some (PyVal.num q1) → bbox.x2 = some (PyVal.num q2) → q2 ≤ q1 →
        validate_bbox bbox w h allow = false) ∧
      (∀ q1 q2, bbox.y1 = some (PyVal.num q1) → bbox.y2 = some (PyVal.num q2) → q2 ≤ q1 →
        validate_bbox bbox w h allow = false) ∧
      (∀ q, bbox.x1 = some (PyVal.num q) → q < 0 → validate_bbox bbox w h allow = false) ∧
      (∀ q, bbox.y1 = some (PyVal.num q) → q < 0 → validate_bbox bbox w h allow = false) ∧
      (∀ q, bbox.x2 = some (PyVal.num q) → q < 0 → validate_bbox bbox w h allow = false) ∧
      (∀ q, bbox.y2 = some (PyVal.num q) → q < 0 → validate_bbox bbox w h allow = false) ∧
      (∀ q, bbox.x2 = some (PyVal.num q) → w < q → validate_bbox bbox w h false = false) ∧
      (∀ q, bbox.y2 = some (PyVal.num q) → h < q → validate_bbox bbox w h false = false) := by
  intro bbox w h allow
  obtain ⟨f1, f2, f3, f4⟩ := bbox
  refine ⟨?_, ?_, ?_, ?_, ?_, ?_, ?_, ?_⟩
  · intro q1 q2 h1 h2 hle
    simp only at h1 h2
    subst h1; subst h2
    rcases f2 with _ | ⟨q | s⟩ <;> rcases f4 with _ | ⟨q2 | s2⟩ <;>
      simp [validate_bbox, pyGe, pyLt, pyGt, not_lt.2 hle]
  · intro q1 q2 h1 h2 hle
    simp only at h1 h2
    subst h1; subst h2
    rcases f1 with _ | ⟨q | s⟩ <;> rcases f3 with _ | ⟨q2 | s2⟩ <;>
      simp [validate_bbox, pyGe, pyLt, pyGt, not_lt.2 hle]
  · intro q h1 hneg
    simp only at h1
    subst h1
    rcases f2 with _ | ⟨q2 | s2⟩ <;> rcases f3 with _ | ⟨q3 | s3⟩ <;>
      rcases f4 with _ | ⟨q4 | s4⟩ <;>
      simp [validate_bbox, pyGe, pyLt, pyGt, hneg]
  · intro q h1 hneg
    simp only at h1
    subst h1
    rcases f1 with _ | ⟨q1 | s1⟩ <;> rcases f3 with _ | ⟨q3 | s3⟩ <;>
      rcases f4 with _ | ⟨q4 | s4⟩ <;>
      simp [validate_bbox, pyGe, pyLt, pyGt, hneg]
  · intro q h1 hneg
    simp only at h1
    subst h1
    rcases f1 with _ | ⟨q1 | s1⟩ <;> rcases f2 with _ | ⟨q2 | s2⟩ <;>
      rcases f4 with _ | ⟨q4 | s4⟩ <;>
      simp [validate_bbox, pyGe, pyLt, pyGt, hneg]
    all_goals intros
    all_goals exfalso
    all_goals linarith
  · intro q h1 hneg
    simp only at h1
    subst h1
    rcases f1 with _ | ⟨q1 | s1⟩ <;> rcases f2 with _ | ⟨q2 | s2⟩ <;>
      rcases f3 with _ | ⟨q3 | s3⟩ <;>
      simp [validate_bbox, pyGe, pyLt, pyGt, hneg]
    all_goals intros
    all_goals exfalso
    all_goals linarith
  · intro q h1 hw
    simp only at h1
    subst h1
    rcases f1 with _ | ⟨q1 | s1⟩ <;> rcases f2 with _ | ⟨q2 | s2⟩ <;>
      rcases f4 with _ | ⟨q4 | s4⟩ <;>
      simp [validate_bbox, pyGe, pyLt, pyGt, hw]
  · intro q h1 hw
    simp only at h1
    subst h1
    rcases f1 with _ | ⟨q1 | s1⟩ <;> rcases f2 with _ | ⟨q2 | s2⟩ <;>
      rcases f3 with _ | ⟨q3 | s3⟩ <;>
      simp [validate_bbox, pyGe, pyLt, pyGt, hw]

/-- Witness for C6: concrete boxes exercising the ordering, negativity
and out-of-bounds conditions. -/
theorem validate_bbox_false_cases_witness :
    validate_bbox ⟨some (PyVal.num 5), some (PyVal.num 0), some (PyVal.num 3),
      some (PyVal.num 1)⟩ 10 10 true = false ∧
    validate_bbox ⟨some (PyVal.num (-2)), some (PyVal.num 0), some (PyVal.num 3),
      some (PyVal.num 1)⟩ 10 10 true = false ∧
    validate_bbox ⟨some (PyVal.num 0), some (PyVal.num 0), some (PyVal.num 12),
      some (PyVal.num 1)⟩ 10 10 false = false :=
  ⟨(validate_bbox_false_cases _ 10 10 true).1 5 3 rfl rfl (by norm_num),
   (validate_bbox_false_cases _ 10 10 true).2.2.1 (-2) rfl (by norm_num),
   (validate_bbox_false_cases _ 10 10 false).2.2.2.2.2.2.1 12 rfl (by norm_num)⟩

/-- Claim C7: for valid boxes, IoU of a box with itself is 1, IoU is
symmetric, IoU of disjoint boxes (degenerate intersection) is 0, and the
result always lies in the interval from 0 to 1. -/
theorem check_overlap_iou_properties : ∀ a b : QBox, validQBox a → validQBox b →
    check_overlap a a = 1 ∧
    check_overlap a b = check_overlap b a ∧
    (max a.x1 b.x1 ≥ min a.x2 b.x2 ∨ max a.y1 b.y1 ≥ min a.y2 b.y2 →
      check_overlap a b = 0) ∧
    0 ≤ check_overlap a b ∧ check_overlap a b ≤ 1 := by
  intro a b ha hb
  obtain ⟨hax, hay⟩ := ha
  obtain ⟨hbx, hby⟩ := hb
  refine ⟨?_, ?_, ?_, ?_⟩
  · simp only [check_overlap, max_self, min_self]
    rw [if_neg (by push_neg; exact ⟨hax, hay⟩)]
    have hI : 0 < (a.x2 - a.x1) * (a.y2 - a.y1) :=
      mul_pos (sub_pos.2 hax) (sub_pos.2 hay)
    have h2 : (a.x2 - a.x1) * (a.y2 - a.y1) + (a.x2 - a.x1) * (a.y2 - a.y1) -
        (a.x2 - a.x1) * (a.y2 - a.y1) = (a.x2 - a.x1) * (a.y2 - a.y1) := by ring
    rw [h2, if_pos hI]
    exact div_self hI.ne'
  · simp only [check_overlap]
    rw [max_comm a.x1 b.x1, max_comm a.y1 b.y1, min_comm a.x2 b.x2, min_comm a.y2 b.y2,
      add_comm ((a.x2 - a.x1) * (a.y2 - a.y1)) ((b.x2 - b.x1) * (b.y2 - b.y1))]
  · intro h
    simp only [check_overlap]
    rw [if_pos h]
  · by_cases hd : max a.x1 b.x1 ≥ min a.x2 b.x2 ∨ max a.y1 b.y1 ≥ min a.y2 b.y2
    · simp only [check_overlap]
      rw [if_pos hd]
      exact ⟨le_refl 0, zero_le_one⟩
    · push_neg at hd
      obtain ⟨hd1, hd2⟩ := hd
      simp only [check_overlap]
      rw [if_neg (by push_neg; exact ⟨hd1, hd2⟩)]
      have hwi : 0 < min a.x2 b.x2 - max a.x1 b.x1 := sub_pos.2 hd1
      have hhi : 0 < min a.y2 b.y2 - max a.y1 b.y1 := sub_pos.2 hd2
      have hI : 0 < (min a.x2 b.x2 - max a.x1 b.x1) * (min a.y2 b.y2 - max a.y1 b.y1) :=
        mul_pos hwi hhi
      have hw1 : min a.x2 b.x2 - max a.x1 b.x1 ≤ a.x2 - a.x1 :=
        sub_le_sub (min_le_left _ _) (le_max_left _ _)
      have hh1 : min a.y2 b.y2 - max a.y1 b.y1 ≤ a.y2 - a.y1 :=
        sub_le_sub (min_le_left _ _) (le_max_left _ _)
      have hw2 : min a.x2 b.x2 - max a.x1 b.x1 ≤ b.x2 - b.x1 :=
        sub_le_sub (min_le_right _ _) (le_max_right _ _)
      have hh2 : min a.y2 b.y2 - max a.y1 b.y1 ≤ b.y2 - b.y1 :=
        sub_le_sub (min_le_right _ _) (le_max_right _ _)
      have hA1 : (min a.x2 b.x2 - max a.x1 b.x1) * (min a.y2 b.y2 - max a.y1 b.y1) ≤
          (a.x2 - a.x1) * (a.y2 - a.y1) :=
        mul_le_mul hw1 hh1 hhi.le (by linarith)
      have hA2 : (min a.x2 b.x2 - max a.x1 b.x1) * (min a.y2 b.y2 - max a.y1 b.y1) ≤
          (b.x2 - b.x1) * (b.y2 - b.y1) :=
        mul_le_mul hw2 hh2 hhi.le (by linarith)
      have hU : 0 < (a.x2 - a.x1) * (a.y2 - a.y1) + (b.x2 - b.x1) * (b.y2 - b.y1) -
          (min a.x2 b.x2 - max a.x1 b.x1) * (min a.y2 b.y2 - max a.y1 b.y1) := by
        linarith
      rw [if_pos hU]
      constructor
      · exact div_nonneg hI.le hU.le
      · rw [div_le_one hU]
        linarith

/-- Witness for C7: two concrete disjoint valid boxes. -/
theorem check_overlap_iou_properties_witness :
    validQBox ⟨0, 0, 1, 1⟩ ∧ validQBox ⟨2, 2, 3, 3⟩ ∧
    check_overlap ⟨0, 0, 1, 1⟩ ⟨0, 0, 1, 1⟩ = 1 ∧
    check_overlap ⟨0, 0, 1, 1⟩ ⟨2, 2, 3, 3⟩ = check_overlap ⟨2, 2, 3, 3⟩ ⟨0, 0, 1, 1⟩ ∧
    check_overlap ⟨0, 0, 1, 1⟩ ⟨2, 2, 3, 3⟩ = 0 ∧
    0 ≤ check_overlap ⟨0, 0, 1, 1⟩ ⟨2, 2, 3, 3⟩ ∧
    check_overlap ⟨0, 0, 1, 1⟩ ⟨2, 2, 3, 3⟩ ≤ 1 := by
  have ha : validQBox ⟨0, 0, 1, 1⟩ := by constructor <;> norm_num
  have hb : validQBox ⟨2, 2, 3, 3⟩ := by constructor <;> norm_num
  have h := check_overlap_iou_properties ⟨0, 0, 1, 1⟩ ⟨2, 2, 3, 3⟩ ha hb
  have hdis : max (0 : ℚ) 2 ≥ min (1 : ℚ) 3 ∨ max (0 : ℚ) 2 ≥ min (1 : ℚ) 3 := by
    left
    rw [max_eq_right (by norm_num : (0 : ℚ) ≤ 2), min_eq_left (by norm_num : (1 : ℚ) ≤ 3)]
    norm_num
  exact ⟨ha, hb, h.1, h.2.1, h.2.2.1 hdis, h.2.2.2⟩

/-- Claim C8: aggregate fails exactly on an empty metrics sequence, and
on three operations with times 1, 2, 3 and token counts 10, 20, 30 it
returns count 3, total time 6, mean time 2, total tokens 60, minimum
time 1 and maximum time 3. -/
theorem aggregate_empty_and_example :
    (∀ metrics : List PerformanceMetrics, (aggregate metrics).isSome = true ↔ metrics ≠ []) ∧
    (aggregate [⟨1, 10, 10, 0, 10⟩, ⟨2, 20, 10, 0, 20⟩, ⟨3, 30, 10, 0, 30⟩]).map (fun a =>
      (a.num_operations, a.total_time, a.avg_time, a.total_tokens_generated,
       a.min_time, a.max_time)) = some (3, 6, 2, 60, 1, 3) := by
  constructor
  · intro ms; cases ms <;> simp [aggregate]
  · with_unfolding_all rfl

/-- Claim C9: generate_type_overlays on an empty element list returns the
empty mapping and writes no image files. -/
theorem generate_type_overlays_empty :
    ∀ output_dir : String, generate_type_overlays [] output_dir = ([], []) :=
  fun _ => rfl

/-- Claim C10: the result of extract_all_elements is independent of the
`padding` option — two option records that differ only in their padding
value produce identical element lists. -/
theorem extract_all_elements_padding_irrelevant :
    ∀ (iw ih : ℤ) (txt : String) (pg : ℤ) (o : ExtractOptions) (p q : ℤ),
      extract_all_elements iw ih txt pg { o with padding := p } =
      extract_all_elements iw ih txt pg { o with padding := q } :=
  fun _ _ _ _ _ _ _ => rfl

end DeepSeekOCR
